import Mathlib

/-!
Shallow embedding of `src/inc/object_mutex.hpp` (repository PFA03027/object_mutex).

The header defines:

* `obj_mutex<T, MTX_T>` — a value `v_` paired with a mutable mutex `mtx_`
  (the spec's GuardedValue); copy/move assignment between two distinct
  instances locks both mutexes through `std::scoped_lock`, self-assignment
  returns immediately; `lock`/`try_lock`/`unlock` and the shared variants
  delegate to the mutex.
* `obj_lock_guard<OM>` — a scope guard deriving from `std::lock_guard`,
  constructed already holding the lock, with unchecked `ref`/`operator*`/
  `operator->` accessors.
* `obj_unique_lock<OM>` — movable exclusive handle deriving from
  `std::unique_lock` (fields: mutex pointer + `owns` flag) plus a raw
  back-pointer `p_om_`; tagged constructors (plain / `defer_lock` /
  `try_to_lock` / `adopt_lock`); `ref()` throws when `!owns_lock()` and
  then when `p_om_ == nullptr`; `operator*`/`operator->` are `noexcept`
  and dereference `p_om_` without any check.
* `obj_shared_lock<OM>` — the shared counterpart deriving from
  `std::shared_lock`, same shape.

Mutex states are modelled explicitly: an exclusive mutex is a `Bool`
(locked or free), a reader/writer mutex is an `excl` flag plus a reader
count.  A collection of mutexes ("world") is a `List Bool` indexed by
mutex id; pointers held by lock handles are `Option Nat` ids, a null
pointer being `none`.  Blocking calls are modelled as `Option`-returning
functions: `none` means the call would block in the given state.
-/

namespace ObjectMutex

/-! ## Exclusive mutex model (std::mutex and the exclusive face of any lock) -/

/-- One exclusive mutex: `true` = locked, `false` = free. -/
abbrev MtxState := Bool

/-- `mtx_.try_lock()`: succeeds exactly on a free mutex, never blocks. -/
def mtxTryLock (m : MtxState) : Bool × MtxState :=
  if m then (false, m) else (true, true)

/-- `mtx_.lock()`: blocks while the mutex is held; acquisition succeeds on a
free mutex. `none` = the call blocks in this state. -/
def mtxLock (m : MtxState) : Option MtxState :=
  if m then none else some true

/-- `mtx_.unlock()`: releases the mutex. -/
def mtxUnlock (_ : MtxState) : MtxState := false

/-! ## Reader/writer mutex model (std::shared_mutex) -/

/-- State of a reader/writer mutex: exclusive flag plus reader count. -/
structure SharedMtxState where
  excl : Bool
  readers : Nat
  deriving DecidableEq, Repr

/-- A shared mutex with no holder at all. -/
def sharedMtxFree : SharedMtxState := ⟨false, 0⟩

/-- `try_lock()` on a shared mutex: exclusive acquisition succeeds only when
there is no exclusive holder and no reader. -/
def smTryLock (s : SharedMtxState) : Bool × SharedMtxState :=
  if s.excl || s.readers != 0 then (false, s) else (true, ⟨true, 0⟩)

/-- `lock()` on a shared mutex: blocks while any holder exists. -/
def smLock (s : SharedMtxState) : Option SharedMtxState :=
  if s.excl || s.readers != 0 then none else some ⟨true, 0⟩

/-- `unlock()` on a shared mutex: drops the exclusive hold. -/
def smUnlock (s : SharedMtxState) : SharedMtxState := ⟨false, s.readers⟩

/-- `try_lock_shared()`: succeeds whenever no exclusive holder exists. -/
def smTryLockShared (s : SharedMtxState) : Bool × SharedMtxState :=
  if s.excl then (false, s) else (true, ⟨false, s.readers + 1⟩)

/-- `lock_shared()`: blocks while an exclusive holder exists. -/
def smLockShared (s : SharedMtxState) : Option SharedMtxState :=
  if s.excl then none else some ⟨false, s.readers + 1⟩

/-- `unlock_shared()`: one reader leaves. -/
def smUnlockShared (s : SharedMtxState) : SharedMtxState :=
  ⟨s.excl, s.readers - 1⟩

/-! ## obj_mutex (the GuardedValue): value + mutex -/

/-- One `obj_mutex<V>` instance: the mutable mutex `mtx_` and the protected
value `v_`. -/
structure OMState (V : Type) where
  mtx : MtxState
  v : V
  deriving DecidableEq, Repr

/-- `obj_mutex(U&& src)`: forwards the argument to the value, the mutex is
default-constructed (free). -/
def objMutexFromValue {V : Type} (x : V) : OMState V := ⟨false, x⟩

/-- The moved-to/residue pair a C++ move of a `V` produces: `(mv x).1` lands
in the destination, `(mv x).2` is what the moved-from source retains.  For
`int` (and any type without a move constructor) a move is a copy, so the
source keeps its value. -/
def intMove (x : Int) : Int × Int := (x, x)

/-- `obj_mutex::operator=(obj_mutex&&)` over a world `w` of instances,
assigning instance `i` (destination, `*this`) from instance `j` (source).
The code first tests `this == &src` and returns `*this` untouched; for
distinct instances it takes `std::scoped_lock lock(mtx_, src.mtx_)` —
which blocks while either mutex is held (`none`) — then runs
`v_ = std::move(src.v_)` and releases both on scope exit. -/
def objMutexMoveAssignW {V : Type} (mv : V → V × V) (w : List (OMState V))
    (i j : Nat) : Option (List (OMState V)) :=
  if i = j then
    some w
  else
    match w.get? i, w.get? j with
    | some d, some s =>
      if d.mtx || s.mtx then none
      else
        let p := mv s.v
        some ((w.set i ⟨false, p.1⟩).set j ⟨false, p.2⟩)
    | _, _ => none

/-- `obj_mutex::operator=(const obj_mutex&)` over a world of instances:
self-assignment check, then `std::scoped_lock` over both mutexes, then
`v_ = src.v_`. -/
def objMutexCopyAssignW {V : Type} (w : List (OMState V))
    (i j : Nat) : Option (List (OMState V)) :=
  if i = j then
    some w
  else
    match w.get? i, w.get? j with
    | some d, some s =>
      if d.mtx || s.mtx then none
      else some ((w.set i ⟨false, s.v⟩).set j s)
    | _, _ => none

/-- `obj_mutex::try_lock()` on one instance. -/
def objMutexTryLock {V : Type} (o : OMState V) : Bool × OMState V :=
  let p := mtxTryLock o.mtx
  (p.1, ⟨p.2, o.v⟩)

/-- `obj_mutex::unlock()` on one instance. -/
def objMutexUnlock {V : Type} (o : OMState V) : OMState V :=
  ⟨mtxUnlock o.mtx, o.v⟩

/-! ## obj_lock_guard: scoped guard, constructed already holding the lock -/

/-- An `obj_lock_guard` after construction: the `std::lock_guard` base has
acquired the mutex and `p_om_` points at the guarded instance.  We carry
the locked instance itself; `refGuard` below is its `ref()`. -/
structure LockGuard (V : Type) where
  om : OMState V
  deriving Repr

/-- `obj_lock_guard(OM& om)`: blocks until `*om.mutex()` is acquired; on a
free mutex it acquires and records the back-pointer. -/
def lockGuardCtor {V : Type} (o : OMState V) : Option (LockGuard V) :=
  match mtxLock o.mtx with
  | none => none
  | some m => some ⟨⟨m, o.v⟩⟩

/-- `obj_lock_guard::ref()` / `operator*`: returns `p_om_->ref()`, the
protected value, unconditionally (`noexcept`). -/
def lockGuardRef {V : Type} (g : LockGuard V) : V := g.om.v

/-! ## Movable lock handles: error taxonomy and dereference outcomes -/

/-- Which `std::runtime_error` a checked accessor raises. -/
inductive RefError where
  /-- "Cannot access ref() without owning the lock." -/
  | notOwning
  /-- "Cannot access ref() without object." -/
  | noObject
  deriving DecidableEq, Repr

/-- Outcome of one dereference entry point: a reference to the value, a
raised exception, or undefined behaviour (dereferencing a null `p_om_`
in a `noexcept` member). -/
inductive DerefOutcome (V : Type) where
  | ok (v : V)
  | err (e : RefError)
  | undef
  deriving DecidableEq, Repr

/-- Whether an outcome is a raised error. -/
def DerefOutcome.isErr {V : Type} : DerefOutcome V → Bool
  | .err _ => true
  | _ => false

/-! ## obj_unique_lock: movable exclusive handle -/

/-- An `obj_unique_lock<OM>`: the `std::unique_lock` base is a mutex
pointer (`mtx`, an id into the mutex world, `none` = null) and the
`owns` flag; `pom` is the `p_om_` back-pointer to the guarded instance. -/
structure UniqueLockH where
  mtx : Option Nat
  owns : Bool
  pom : Option Nat
  deriving DecidableEq, Repr

/-- `obj_unique_lock()`: null base, not owning, null back-pointer. -/
def ulDefault : UniqueLockH := ⟨none, false, none⟩

/-- Lock state of mutex `i` in a world: out-of-world ids read as locked so
that no operation on them can "succeed". -/
def worldGet (w : List Bool) (i : Nat) : Bool := (w.get? i).getD true

/-- `lock()` on mutex `i` of a world: blocks (`none`) while it is held. -/
def mtxLockW (w : List Bool) (i : Nat) : Option (List Bool) :=
  if worldGet w i then none else some (w.set i true)

/-- `try_lock()` on mutex `i` of a world: never blocks, reports success. -/
def mtxTryLockW (w : List Bool) (i : Nat) : Bool × List Bool :=
  if worldGet w i then (false, w) else (true, w.set i true)

/-- `unlock()` on mutex `i` of a world. -/
def mtxUnlockW (w : List Bool) (i : Nat) : List Bool := w.set i false

/-- `obj_unique_lock(OM& om)` (immediate mode): the `std::unique_lock`
base blocks until `*om.mutex()` is acquired. -/
def ulCtorImmediate (i : Nat) (w : List Bool) : Option (UniqueLockH × List Bool) :=
  match mtxLockW w i with
  | none => none
  | some w' => some (⟨some i, true, some i⟩, w')

/-- `obj_unique_lock(OM& om, std::defer_lock_t)`: stores the pointers,
attempts no acquisition. -/
def ulCtorDefer (i : Nat) (w : List Bool) : UniqueLockH × List Bool :=
  (⟨some i, false, some i⟩, w)

/-- `obj_unique_lock(OM& om, std::try_to_lock_t)`: non-blocking
`try_lock`; `owns` records its outcome. -/
def ulCtorTry (i : Nat) (w : List Bool) : UniqueLockH × List Bool :=
  let r := mtxTryLockW w i
  (⟨some i, r.1, some i⟩, r.2)

/-- `obj_unique_lock(OM& om, std::adopt_lock_t)`: records `owns = true`
without touching the mutex (the caller already holds it). -/
def ulCtorAdopt (i : Nat) (w : List Bool) : UniqueLockH × List Bool :=
  (⟨some i, true, some i⟩, w)

/-- `obj_unique_lock(obj_unique_lock&& src)`: the base transfers the mutex
pointer and `owns` and nulls them in the source; `p_om_` is copied and then
`src.p_om_ = nullptr`.  Returns (moved-to, moved-from). -/
def ulMoveCtor (src : UniqueLockH) : UniqueLockH × UniqueLockH :=
  (⟨src.mtx, src.owns, src.pom⟩, ⟨none, false, none⟩)

/-- `~obj_unique_lock()`: the `std::unique_lock` base unlocks its mutex
exactly when it owns it. -/
def ulDtor (h : UniqueLockH) (w : List Bool) : List Bool :=
  match h.owns, h.mtx with
  | true, some i => w.set i false
  | _, _ => w

/-- `obj_unique_lock::operator=(obj_unique_lock&&)` for distinct handles:
`obj_unique_lock(std::move(src)).swap(*this)` — a temporary takes the
source's state, swaps with `*this`, and the temporary (now carrying the
old `*this` state) is destroyed, unlocking whatever `*this` held.
Returns (new `*this`, new `src`, world after the temporary's destructor). -/
def ulMoveAssign (dst src : UniqueLockH) (w : List Bool) :
    UniqueLockH × UniqueLockH × List Bool :=
  let p := ulMoveCtor src
  (p.1, p.2, ulDtor dst w)

/-- `obj_unique_lock::ref()`: throws "without owning the lock" when
`!owns_lock()`, then "without object" when `p_om_ == nullptr`, else
returns `p_om_->ref()` (the value `v` of the pointed-to instance). -/
def ulRef {V : Type} (h : UniqueLockH) (v : V) : DerefOutcome V :=
  if !h.owns then .err .notOwning
  else if h.pom = none then .err .noObject
  else .ok v

/-- `obj_unique_lock::operator*` (`noexcept`): returns `p_om_->ref()` with
no ownership check; a null `p_om_` is undefined behaviour, not an error. -/
def ulStar {V : Type} (h : UniqueLockH) (v : V) : DerefOutcome V :=
  match h.pom with
  | none => .undef
  | some _ => .ok v

/-- `obj_unique_lock::operator->` (`noexcept`): `&p_om_->ref()`, same
unchecked shape as `operator*`. -/
def ulArrow {V : Type} (h : UniqueLockH) (v : V) : DerefOutcome V :=
  match h.pom with
  | none => .undef
  | some _ => .ok v

/-! ## obj_shared_lock: movable shared handle -/

/-- An `obj_shared_lock<OM>`: `std::shared_lock` base (mutex pointer +
`owns`) plus the `p_om_` back-pointer. -/
structure SharedLockH where
  mtx : Option Nat
  owns : Bool
  pom : Option Nat
  deriving DecidableEq, Repr

/-- `obj_shared_lock()`: null base, not owning, null back-pointer. -/
def slDefault : SharedLockH := ⟨none, false, none⟩

/-- Shared-mutex world lookup; out-of-world ids read as exclusively held. -/
def sworldGet (w : List SharedMtxState) (i : Nat) : SharedMtxState :=
  (w.get? i).getD ⟨true, 0⟩

/-- `obj_shared_lock(OM& om)` (immediate): the base blocks in
`lock_shared()` while an exclusive holder exists. -/
def slCtorImmediate (i : Nat) (w : List SharedMtxState) :
    Option (SharedLockH × List SharedMtxState) :=
  match smLockShared (sworldGet w i) with
  | none => none
  | some s => some (⟨some i, true, some i⟩, w.set i s)

/-- `obj_shared_lock(OM& om, std::defer_lock_t)`: no acquisition. -/
def slCtorDefer (i : Nat) (w : List SharedMtxState) :
    SharedLockH × List SharedMtxState :=
  (⟨some i, false, some i⟩, w)

/-- `obj_shared_lock(OM& om, std::try_to_lock_t)`: non-blocking
`try_lock_shared`; `owns` records its outcome. -/
def slCtorTry (i : Nat) (w : List SharedMtxState) :
    SharedLockH × List SharedMtxState :=
  let r := smTryLockShared (sworldGet w i)
  (⟨some i, r.1, some i⟩, w.set i r.2)

/-- `obj_shared_lock(OM& om, std::adopt_lock_t)`: records `owns = true`
without acquiring. -/
def slCtorAdopt (i : Nat) (w : List SharedMtxState) :
    SharedLockH × List SharedMtxState :=
  (⟨some i, true, some i⟩, w)

/-- `obj_shared_lock(obj_shared_lock&& src)`: transfers base state and
`p_om_`, nulling both in the source. -/
def slMoveCtor (src : SharedLockH) : SharedLockH × SharedLockH :=
  (⟨src.mtx, src.owns, src.pom⟩, ⟨none, false, none⟩)

/-- `~obj_shared_lock()`: the base calls `unlock_shared()` exactly when it
owns a shared hold. -/
def slDtor (h : SharedLockH) (w : List SharedMtxState) : List SharedMtxState :=
  match h.owns, h.mtx with
  | true, some i => w.set i (smUnlockShared (sworldGet w i))
  | _, _ => w

/-- `obj_shared_lock::operator=(obj_shared_lock&&)` for distinct handles:
same temporary-swap pattern as the unique lock. -/
def slMoveAssign (dst src : SharedLockH) (w : List SharedMtxState) :
    SharedLockH × SharedLockH × List SharedMtxState :=
  let p := slMoveCtor src
  (p.1, p.2, slDtor dst w)

/-- `obj_shared_lock::ref()`: same two checks, in the same order, as
`obj_unique_lock::ref()`. -/
def slRef {V : Type} (h : SharedLockH) (v : V) : DerefOutcome V :=
  if !h.owns then .err .notOwning
  else if h.pom = none then .err .noObject
  else .ok v

/-- `obj_shared_lock::operator*` (`noexcept`): unchecked `p_om_->ref()`. -/
def slStar {V : Type} (h : SharedLockH) (v : V) : DerefOutcome V :=
  match h.pom with
  | none => .undef
  | some _ => .ok v

/-- `obj_shared_lock::operator->` (`noexcept`): unchecked `&p_om_->ref()`. -/
def slArrow {V : Type} (h : SharedLockH) (v : V) : DerefOutcome V :=
  match h.pom with
  | none => .undef
  | some _ => .ok v

/-- Exclusive `try_lock()` on shared mutex `i` of a world. -/
def smTryLockW (w : List SharedMtxState) (i : Nat) : Bool × List SharedMtxState :=
  let r := smTryLock (sworldGet w i)
  (r.1, w.set i r.2)

/-- `unlock_shared()` on shared mutex `i` of a world. -/
def smUnlockSharedW (w : List SharedMtxState) (i : Nat) : List SharedMtxState :=
  w.set i (smUnlockShared (sworldGet w i))

/-! ## Whole-instance value access paths

`omAccessRef` is the sequence `obj_unique_lock ul(om); ul.ref()` run against
one instance (a one-mutex world); `smAccessRefFresh` is
`obj_shared_lock sl(om); sl.ref()` against a freshly constructed instance
whose shared mutex is free; `guardAccess` is `obj_lock_guard g(om); g.ref()`. -/

/-- Access through an immediate `obj_unique_lock` followed by `ref()`:
`none` when the construction blocks. -/
def omAccessRef {V : Type} (o : OMState V) : Option (DerefOutcome V) :=
  match ulCtorImmediate 0 [o.mtx] with
  | none => none
  | some p => some (ulRef p.1 o.v)

/-- Access to a value behind a free shared mutex through an immediate
`obj_shared_lock` followed by `ref()`. -/
def smAccessRefFresh {V : Type} (x : V) : Option (DerefOutcome V) :=
  match slCtorImmediate 0 [sharedMtxFree] with
  | none => none
  | some p => some (slRef p.1 x)

/-- Access through an `obj_lock_guard` (`ref()` is unchecked):
`none` when the construction blocks. -/
def guardAccess {V : Type} (o : OMState V) : Option V :=
  (lockGuardCtor o).map lockGuardRef

/-- `~obj_lock_guard()`: the `std::lock_guard` base unlocks unconditionally. -/
def lockGuardDtor {V : Type} (g : LockGuard V) : OMState V :=
  ⟨mtxUnlock g.om.mtx, g.om.v⟩

/-! ## The two-mutex acquisition of `std::scoped_lock lock(mtx_, src.mtx_)`

`std::scoped_lock` over two mutexes runs `std::lock`, the standard
deadlock-avoidance algorithm: blocking-`lock` one mutex while holding
nothing, then `try_lock` the other; on failure release the first and
retry, starting from the mutex that refused.  The model makes the thread
interleaving explicit: an environment action re-sets the state of any
mutex the assigning thread does not hold (other threads locking and
unlocking), and an algorithm action runs one micro-step. -/

/-- The two mutexes of `operator=`: `m0` = destination's `mtx_`, `m1` =
source's `mtx_`; `m` fields say whether anyone holds the mutex, `held`
fields whether the assigning thread does. -/
structure TwoMtxWorld where
  m0 : Bool
  m1 : Bool
  held0 : Bool
  held1 : Bool
  deriving DecidableEq, Repr

/-- Where the acquisition stands.  `first` names the mutex currently being
blocking-locked (`false` = mutex 0): `blockFirst` = inside the blocking
`lock` holding nothing, `tryOther` = first acquired, about to `try_lock`
the other, `acquired` = both held. -/
inductive LockPhase where
  | blockFirst (first : Bool)
  | tryOther (first : Bool)
  | acquired
  deriving DecidableEq, Repr

/-- One interleaving event: other threads re-set the non-held mutexes, or
the acquisition algorithm runs one micro-step. -/
inductive ScopedAct where
  | env (a0 a1 : Bool)
  | alg
  deriving DecidableEq, Repr

/-- Environment interference: mutexes the assigning thread holds cannot be
touched by other threads; the rest may change freely. -/
def envStep (a0 a1 : Bool) (w : TwoMtxWorld) : TwoMtxWorld :=
  { w with m0 := if w.held0 then w.m0 else a0, m1 := if w.held1 then w.m1 else a1 }

/-- One micro-step of `std::lock`'s lock/try/back-off loop. -/
def algStep (p : LockPhase) (w : TwoMtxWorld) : LockPhase × TwoMtxWorld :=
  match p with
  | .blockFirst f =>
    if (if f then w.m1 else w.m0) then
      (.blockFirst f, w)
    else if f then
      (.tryOther f, { w with m1 := true, held1 := true })
    else
      (.tryOther f, { w with m0 := true, held0 := true })
  | .tryOther f =>
    if (if f then w.m0 else w.m1) then
      if f then (.blockFirst false, { w with m1 := false, held1 := false })
      else (.blockFirst true, { w with m0 := false, held0 := false })
    else if f then
      (.acquired, { w with m0 := true, held0 := true })
    else
      (.acquired, { w with m1 := true, held1 := true })
  | .acquired => (.acquired, w)

/-- Apply one interleaving event. -/
def scopedStep (s : LockPhase × TwoMtxWorld) (a : ScopedAct) : LockPhase × TwoMtxWorld :=
  match a with
  | .env a0 a1 => (s.1, envStep a0 a1 s.2)
  | .alg => algStep s.1 s.2

/-- All states the acquisition passes through under a given interleaving,
the initial state included. -/
def scopedTrace (s : LockPhase × TwoMtxWorld) : List ScopedAct → List (LockPhase × TwoMtxWorld)
  | [] => [s]
  | a :: as => s :: scopedTrace (scopedStep s a) as

/-- The per-phase lock-holding invariant of `std::lock`: nothing is held
inside the blocking `lock`, exactly the first mutex during the `try_lock`,
both once acquired. -/
def scopedInv (s : LockPhase × TwoMtxWorld) : Prop :=
  match s.1 with
  | .blockFirst _ => s.2.held0 = false ∧ s.2.held1 = false
  | .tryOther f =>
    (f = true → s.2.held1 = true ∧ s.2.held0 = false) ∧
    (f = false → s.2.held0 = true ∧ s.2.held1 = false)
  | .acquired => s.2.held0 = true ∧ s.2.held1 = true

/-- The value transfer of `operator=`: `v_ = src.v_` runs only once the
`scoped_lock` construction has completed, i.e. in the `acquired` phase. -/
def copyAfterScoped {V : Type} (src : OMState V) (s : LockPhase × TwoMtxWorld) : Option V :=
  if s.1 = .acquired then some src.v else none

/-- The value transfer of the move `operator=`: `v_ = std::move(src.v_)`,
again only once both locks are held. -/
def moveAfterScoped {V : Type} (mv : V → V × V) (src : OMState V)
    (s : LockPhase × TwoMtxWorld) : Option (V × V) :=
  if s.1 = .acquired then some (mv src.v) else none

/-! ## The concrete scenario of spec §8: two `obj_mutex<int>` holding 1 and 2 -/

/-- The two instances of the scenario, holding 1 and 2. -/
def c2World : List (OMState Int) := [objMutexFromValue 1, objMutexFromValue 2]

/-- After `second = std::move(first)`, access the first instance through an
immediate `obj_unique_lock` and `ref()`. -/
def c2FirstAccess : Option (DerefOutcome Int) :=
  match objMutexMoveAssignW intMove c2World 1 0 with
  | some w =>
    match w.get? 0 with
    | some o => omAccessRef o
    | none => none
  | none => none

/-- After `second = std::move(first)`, access the second instance the same
way. -/
def c2SecondAccess : Option (DerefOutcome Int) :=
  match objMutexMoveAssignW intMove c2World 1 0 with
  | some w =>
    match w.get? 1 with
    | some o => omAccessRef o
    | none => none
  | none => none

/-- The claim of spec §8 as stated: after the move-assignment the first
instance's value access fails explicitly and the second yields 1. -/
def claimC2 : Prop :=
  (∃ r, c2FirstAccess = some r ∧ r.isErr = true) ∧
  c2SecondAccess = some (.ok 1)

/-- The claim of C1 as stated: every dereference entry point of a
not-holding movable handle — `ref()`, `operator*` and `operator->`, on
both `obj_unique_lock` and `obj_shared_lock` — raises an error. -/
def claimAllDerefRaise : Prop :=
  (∀ (h : UniqueLockH) (v : Int), h.owns = false →
    (ulRef h v).isErr = true ∧ (ulStar h v).isErr = true ∧ (ulArrow h v).isErr = true) ∧
  (∀ (h : SharedLockH) (v : Int), h.owns = false →
    (slRef h v).isErr = true ∧ (slStar h v).isErr = true ∧ (slArrow h v).isErr = true)

/-- What the code actually guarantees for a not-holding pair of handles:
`ref()` raises on both handle kinds, while `operator*`/`operator->`
perform no ownership check at all — with a non-null back-pointer they
hand out the protected reference, with a null one they are undefined. -/
def refRaisesStarUnchecked (hu : UniqueLockH) (hs : SharedLockH) (v : Int) : Prop :=
  (ulRef hu v).isErr = true ∧ (slRef hs v).isErr = true ∧
  (∀ k, hu.pom = some k → ulStar hu v = .ok v ∧ ulArrow hu v = .ok v) ∧
  (hu.pom = none → ulStar hu v = .undef ∧ ulArrow hu v = .undef) ∧
  (∀ k, hs.pom = some k → slStar hs v = .ok v ∧ slArrow hs v = .ok v) ∧
  (hs.pom = none → slStar hs v = .undef ∧ slArrow hs v = .undef)

/-! # Theorems -/

/-- Setting then reading the same world slot. -/
theorem get?_set_self {α : Type} (w : List α) (i : Nat) (a : α) (h : i < w.length) :
    (w.set i a).get? i = some a := by
  induction w generalizing i with
  | nil => simp at h
  | cons x xs ih =>
    cases i with
    | zero => simp
    | succ n => simpa using ih n (by simpa using h)

/-- Setting then reading the same exclusive-mutex slot. -/
theorem worldGet_set_self (w : List Bool) (i : Nat) (b : Bool) (h : i < w.length) :
    worldGet (w.set i b) i = b := by
  unfold worldGet
  rw [get?_set_self w i b h]
  rfl

/-- Setting then reading the same shared-mutex slot. -/
theorem sworldGet_set_self (w : List SharedMtxState) (i : Nat) (s : SharedMtxState)
    (h : i < w.length) : sworldGet (w.set i s) i = s := by
  unfold sworldGet
  rw [get?_set_self w i s h]
  rfl

/-- C6: for every value X, a GuardedValue constructed with X yields X,
unmodified, through the first guard acquired on it — through
`obj_lock_guard::ref()`, through an immediate `obj_unique_lock`'s checked
`ref()`, and through an immediate `obj_shared_lock`'s checked `ref()` on a
reader/writer lock. -/
theorem c6_fresh_value_through_first_guard (V : Type) (X : V) :
    guardAccess (objMutexFromValue X) = some X ∧
    omAccessRef (objMutexFromValue X) = some (.ok X) ∧
    smAccessRefFresh X = some (.ok X) :=
  ⟨rfl, rfl, rfl⟩

/-- Witness for C6: the integer 5 comes back unmodified through all three
guard kinds. -/
theorem c6_fresh_value_through_first_guard_witness :
    guardAccess (objMutexFromValue (5 : Int)) = some 5 ∧
    omAccessRef (objMutexFromValue (5 : Int)) = some (.ok 5) ∧
    smAccessRefFresh (5 : Int) = some (.ok 5) :=
  c6_fresh_value_through_first_guard Int 5

/-- C8: move-assigning an `obj_mutex` from itself is a no-op: the
`this == &src` test returns `*this` untouched, so the world of instances —
every stored value and every lock state — is unchanged and the operation
completes normally (it does not block). -/
theorem c8_self_move_assign_noop (V : Type) (mv : V → V × V)
    (w : List (OMState V)) (i : Nat) :
    objMutexMoveAssignW mv w i i = some w := by
  simp [objMutexMoveAssignW]

/-- Witness for C8: self-move-assignment of a one-instance world. -/
theorem c8_self_move_assign_noop_witness :
    objMutexMoveAssignW intMove [objMutexFromValue 3] 0 0 =
      some [objMutexFromValue 3] :=
  c8_self_move_assign_noop Int intMove [objMutexFromValue 3] 0

/-- C2 counterexample: in the two-`obj_mutex<int>` scenario (values 1 and 2,
move-assign the second from the first), the first instance's subsequent
access does NOT fail — an `int` move leaves the source value in place and
`obj_mutex` has no moved-from failure state — so the claimed conjunction is
false.  Access of the first instance yields `ok 1`, not an error. -/
theorem c2_counterexample : ¬ claimC2 := by
  intro hc
  obtain ⟨⟨r, hr, hre⟩, _⟩ := hc
  have h1 : c2FirstAccess = some (DerefOutcome.ok 1) := by decide
  rw [h1] at hr
  cases hr
  simp [DerefOutcome.isErr] at hre

/-- C2 amended: after move-assigning the second instance from the first,
the second yields 1; the first instance's subsequent access also succeeds
and yields 1 (an `int` is left unchanged by a move, and `obj_mutex` has no
moved-from failure state), rather than failing. -/
theorem c2_amended_second_yields_one : c2FirstAccess = some (.ok 1) ∧
    c2SecondAccess = some (.ok 1) := by
  constructor <;> decide

/-- C1 counterexample: a deferred-constructed `obj_unique_lock` is
not-holding, yet its `operator*` returns the protected reference without
raising anything — the ownership check exists only in `ref()` — so the
claim that every dereference entry point raises for a not-holding handle is
false. -/
theorem c1_counterexample : ¬ claimAllDerefRaise := by
  intro hc
  have h := (hc.1 (ulCtorDefer 0 [false]).1 7 rfl).2.1
  simp [ulCtorDefer, ulStar, DerefOutcome.isErr] at h

/-- C1 amended: for every not-holding `obj_unique_lock` and
`obj_shared_lock`, the named accessor `ref()` raises an error; but
`operator*` and `operator->` perform no ownership check — with a non-null
back-pointer they return the protected reference, and with a null one the
dereference is undefined behaviour rather than a raised error. -/
theorem c1_amended_only_ref_checks (hu : UniqueLockH) (hs : SharedLockH)
    (v : Int) (hou : hu.owns = false) (hos : hs.owns = false) :
    refRaisesStarUnchecked hu hs v := by
  unfold refRaisesStarUnchecked
  refine ⟨?_, ?_, ?_, ?_, ?_, ?_⟩
  · simp [ulRef, hou, DerefOutcome.isErr]
  · simp [slRef, hos, DerefOutcome.isErr]
  · intro k hk; simp [ulStar, ulArrow, hk]
  · intro hk; simp [ulStar, ulArrow, hk]
  · intro k hk; simp [slStar, slArrow, hk]
  · intro hk; simp [slStar, slArrow, hk]

/-- Witness for C1 amended: the default-constructed handles are concrete
not-holding handles. -/
theorem c1_amended_only_ref_checks_witness :
    ulDefault.owns = false ∧ slDefault.owns = false ∧
    refRaisesStarUnchecked ulDefault slDefault 7 :=
  ⟨rfl, rfl, c1_amended_only_ref_checks ulDefault slDefault 7 rfl rfl⟩

/-- C10: a default-constructed `obj_unique_lock`/`obj_shared_lock` has a
null back-pointer and is not-holding, and for every not-holding handle
(null back-pointer or not) `ref()` raises the not-owning-the-lock error:
the `owns_lock()` check precedes the `p_om_ == nullptr` check. -/
theorem c10_default_handle_ref_not_owning (h : UniqueLockH) (hs : SharedLockH)
    (v : Int) (hou : h.owns = false) (hos : hs.owns = false) :
    ulDefault.pom = none ∧ ulDefault.owns = false ∧
    slDefault.pom = none ∧ slDefault.owns = false ∧
    ulRef h v = .err .notOwning ∧ slRef hs v = .err .notOwning := by
  refine ⟨rfl, rfl, rfl, rfl, ?_, ?_⟩
  · simp [ulRef, hou]
  · simp [slRef, hos]

/-- Witness for C10: the default-constructed handles themselves. -/
theorem c10_default_handle_ref_not_owning_witness :
    ulDefault.pom = none ∧ ulDefault.owns = false ∧
    slDefault.pom = none ∧ slDefault.owns = false ∧
    ulRef ulDefault (7 : Int) = .err .notOwning ∧
    slRef slDefault (7 : Int) = .err .notOwning :=
  c10_default_handle_ref_not_owning ulDefault slDefault 7 rfl rfl

/-- What each tagged constructor produces on mutex `i` of the two worlds:
immediate acquires and ends holding, deferred ends not-holding with the
world untouched, try ends holding exactly as its non-blocking acquisition
reports (which succeeds here), adopt ends holding with the world
untouched. -/
def ctorModesSpec (i : Nat) (w : List Bool) (sw : List SharedMtxState) : Prop :=
  ulCtorImmediate i w = some (⟨some i, true, some i⟩, w.set i true) ∧
  ((ulCtorDefer i w).1.owns = false ∧ (ulCtorDefer i w).2 = w) ∧
  ((ulCtorTry i w).1.owns = (mtxTryLockW w i).1 ∧ (ulCtorTry i w).1.owns = true) ∧
  ((ulCtorAdopt i w).1.owns = true ∧ (ulCtorAdopt i w).2 = w) ∧
  slCtorImmediate i sw = some (⟨some i, true, some i⟩, sw.set i ⟨false, 1⟩) ∧
  ((slCtorDefer i sw).1.owns = false ∧ (slCtorDefer i sw).2 = sw) ∧
  ((slCtorTry i sw).1.owns = (smTryLockShared (sworldGet sw i)).1 ∧
    (slCtorTry i sw).1.owns = true) ∧
  ((slCtorAdopt i sw).1.owns = true ∧ (slCtorAdopt i sw).2 = sw)

/-- C5: on a GuardedValue whose lock is not held, the four construction
modes of `obj_unique_lock` and `obj_shared_lock` end as the state machine
prescribes: immediate → holding; deferred → not-holding without any
acquisition; try → holding exactly when the non-blocking acquisition
succeeds; adopt → holding without performing any acquisition. -/
theorem c5_ctor_modes (i : Nat) (w : List Bool) (sw : List SharedMtxState)
    (hw : worldGet w i = false) (hsw : sworldGet sw i = sharedMtxFree) :
    ctorModesSpec i w sw := by
  unfold ctorModesSpec
  refine ⟨?_, ⟨rfl, rfl⟩, ⟨rfl, ?_⟩, ⟨rfl, rfl⟩, ?_, ⟨rfl, rfl⟩, ⟨rfl, ?_⟩, rfl, rfl⟩
  · simp [ulCtorImmediate, mtxLockW, hw]
  · simp [ulCtorTry, mtxTryLockW, hw]
  · simp [slCtorImmediate, smLockShared, hsw, sharedMtxFree]
  · simp [slCtorTry, smTryLockShared, hsw, sharedMtxFree]

/-- Witness for C5: one free exclusive mutex and one free shared mutex. -/
theorem c5_ctor_modes_witness :
    worldGet [false] 0 = false ∧ sworldGet [sharedMtxFree] 0 = sharedMtxFree ∧
    ctorModesSpec 0 [false] [sharedMtxFree] :=
  ⟨rfl, rfl, c5_ctor_modes 0 [false] [sharedMtxFree] rfl rfl⟩

/-- Exact ownership transfer by move, for both movable handle kinds:
the moved-to handle carries the source's mutex pointer, `owns` flag and
back-pointer unchanged; the moved-from handle is nulled; the swap-based
move-assignment hands `*this` that same transferred state; destroying the
moved-to handle unlocks the mutex the source held, while destroying the
moved-from handle touches nothing. -/
def moveTransferSpec (src : UniqueLockH) (ssrc : SharedLockH)
    (w : List Bool) (sw : List SharedMtxState) (i j : Nat) : Prop :=
  (ulMoveCtor src).1 = ⟨src.mtx, src.owns, src.pom⟩ ∧
  (ulMoveCtor src).2 = ⟨none, false, none⟩ ∧
  (∀ (d : UniqueLockH) (w' : List Bool),
    (ulMoveAssign d src w').1 = ⟨src.mtx, src.owns, src.pom⟩ ∧
    (ulMoveAssign d src w').2.1 = ⟨none, false, none⟩) ∧
  worldGet (ulDtor (ulMoveCtor src).1 w) i = false ∧
  ulDtor (ulMoveCtor src).2 w = w ∧
  (slMoveCtor ssrc).1 = ⟨ssrc.mtx, ssrc.owns, ssrc.pom⟩ ∧
  (slMoveCtor ssrc).2 = ⟨none, false, none⟩ ∧
  (∀ (d : SharedLockH) (sw' : List SharedMtxState),
    (slMoveAssign d ssrc sw').1 = ⟨ssrc.mtx, ssrc.owns, ssrc.pom⟩ ∧
    (slMoveAssign d ssrc sw').2.1 = ⟨none, false, none⟩) ∧
  sworldGet (slDtor (slMoveCtor ssrc).1 sw) j = smUnlockShared (sworldGet sw j) ∧
  slDtor (slMoveCtor ssrc).2 sw = sw

/-- C4: move-constructing (or move-assigning) a movable lock handle from a
holding source transfers the ownership state and back-reference exactly,
nulls the source, and it is the moved-to handle — not the source — whose
release unlocks the GuardedValue. -/
theorem c4_move_transfers_ownership (src : UniqueLockH) (ssrc : SharedLockH)
    (w : List Bool) (sw : List SharedMtxState) (i j : Nat)
    (hui : src.mtx = some i) (huo : src.owns = true) (hiw : i < w.length)
    (hsj : ssrc.mtx = some j) (hso : ssrc.owns = true) (hjw : j < sw.length) :
    moveTransferSpec src ssrc w sw i j := by
  unfold moveTransferSpec
  refine ⟨rfl, rfl, fun d w' => ⟨rfl, rfl⟩, ?_, ?_, rfl, rfl,
    fun d sw' => ⟨rfl, rfl⟩, ?_, ?_⟩
  · simp only [ulMoveCtor, ulDtor, huo, hui]
    exact worldGet_set_self w i false hiw
  · simp [ulMoveCtor, ulDtor]
  · simp only [slMoveCtor, slDtor, hso, hsj]
    exact sworldGet_set_self sw j (smUnlockShared (sworldGet sw j)) hjw
  · simp [slMoveCtor, slDtor]

/-- Witness for C4: a holding handle on mutex 0 of a one-mutex world, and a
holding shared handle on a shared mutex with one reader. -/
theorem c4_move_transfers_ownership_witness :
    (⟨some 0, true, some 0⟩ : UniqueLockH).mtx = some 0 ∧
    (⟨some 0, true, some 0⟩ : UniqueLockH).owns = true ∧
    0 < [true].length ∧
    (⟨some 0, true, some 0⟩ : SharedLockH).mtx = some 0 ∧
    (⟨some 0, true, some 0⟩ : SharedLockH).owns = true ∧
    0 < [(⟨false, 1⟩ : SharedMtxState)].length ∧
    moveTransferSpec ⟨some 0, true, some 0⟩ ⟨some 0, true, some 0⟩
      [true] [⟨false, 1⟩] 0 0 :=
  ⟨rfl, rfl, by decide, rfl, rfl, by decide,
    c4_move_transfers_ownership ⟨some 0, true, some 0⟩ ⟨some 0, true, some 0⟩
      [true] [⟨false, 1⟩] 0 0 rfl rfl (by decide) rfl rfl (by decide)⟩

/-- C9: swap-based move-assignment onto a destination handle that holds a
lock routes the old state into a temporary whose destruction releases that
lock, while `*this` takes over the source's state — so the previously held
lock is released, not leaked. -/
theorem c9_move_assign_releases_old_lock (dst src : UniqueLockH)
    (sdst ssrc : SharedLockH) (w : List Bool) (sw : List SharedMtxState)
    (i j : Nat) (hdi : dst.mtx = some i) (hdo : dst.owns = true)
    (hiw : i < w.length) (hsj : sdst.mtx = some j) (hso : sdst.owns = true)
    (hjw : j < sw.length) :
    worldGet (ulMoveAssign dst src w).2.2 i = false ∧
    (ulMoveAssign dst src w).1 = ⟨src.mtx, src.owns, src.pom⟩ ∧
    (ulMoveAssign dst src w).2.1 = ⟨none, false, none⟩ ∧
    sworldGet (slMoveAssign sdst ssrc sw).2.2 j = smUnlockShared (sworldGet sw j) ∧
    (slMoveAssign sdst ssrc sw).1 = ⟨ssrc.mtx, ssrc.owns, ssrc.pom⟩ ∧
    (slMoveAssign sdst ssrc sw).2.1 = ⟨none, false, none⟩ := by
  refine ⟨?_, rfl, rfl, ?_, rfl, rfl⟩
  · simp only [ulMoveAssign, ulMoveCtor, ulDtor, hdo, hdi]
    exact worldGet_set_self w i false hiw
  · simp only [slMoveAssign, slMoveCtor, slDtor, hso, hsj]
    exact sworldGet_set_self sw j (smUnlockShared (sworldGet sw j)) hjw

/-- Witness for C9: holding destination handles on one-mutex worlds,
sources in arbitrary concrete states. -/
theorem c9_move_assign_releases_old_lock_witness :
    (⟨some 0, true, some 0⟩ : UniqueLockH).mtx = some 0 ∧
    worldGet (ulMoveAssign ⟨some 0, true, some 0⟩ ulDefault [true]).2.2 0 = false ∧
    sworldGet (slMoveAssign ⟨some 0, true, some 0⟩ slDefault [⟨false, 1⟩]).2.2 0 =
      smUnlockShared (sworldGet [⟨false, 1⟩] 0) :=
  ⟨rfl,
    (c9_move_assign_releases_old_lock ⟨some 0, true, some 0⟩ ulDefault
      ⟨some 0, true, some 0⟩ slDefault [true] [⟨false, 1⟩] 0 0
      rfl rfl (by decide) rfl rfl (by decide)).1,
    (c9_move_assign_releases_old_lock ⟨some 0, true, some 0⟩ ulDefault
      ⟨some 0, true, some 0⟩ slDefault [true] [⟨false, 1⟩] 0 0
      rfl rfl (by decide) rfl rfl (by decide)).2.2.2.1⟩

/-- After each release path of each guard kind, `try_lock` on the same
GuardedValue succeeds: explicit `unlock()`, the holding handle's
destructor, destruction of the transferee of a moved-out handle, the
scope guard's destructor, and — for the sole shared holder — the shared
handle's destructor, explicit `unlock_shared()`, and move-out plus
transferee destruction. -/
def releaseThenTrySpec (w : List Bool) (i : Nat) (h : UniqueLockH)
    (sw : List SharedMtxState) (j : Nat) (sh : SharedLockH)
    (V : Type) (g : LockGuard V) : Prop :=
  (mtxTryLockW (mtxUnlockW w i) i).1 = true ∧
  (mtxTryLockW (ulDtor h w) i).1 = true ∧
  (mtxTryLockW (ulDtor (ulMoveCtor h).1 w) i).1 = true ∧
  (objMutexTryLock (lockGuardDtor g)).1 = true ∧
  (smTryLockW (slDtor sh sw) j).1 = true ∧
  (smTryLockW (smUnlockSharedW sw j) j).1 = true ∧
  (smTryLockW (slDtor (slMoveCtor sh).1 sw) j).1 = true

/-- C7: once a guard that holds a GuardedValue's lock releases it —
explicitly, by scope exit, or after being moved out and the transferee
released — a subsequent `try_lock` on that GuardedValue succeeds, for
every guard/lock type combination. -/
theorem c7_release_then_try_lock_succeeds (w : List Bool) (i : Nat)
    (h : UniqueLockH) (sw : List SharedMtxState) (j : Nat) (sh : SharedLockH)
    (V : Type) (g : LockGuard V) (hiw : i < w.length)
    (hmtx : h.mtx = some i) (howns : h.owns = true) (hjw : j < sw.length)
    (shm : sh.mtx = some j) (sho : sh.owns = true)
    (hsole : sworldGet sw j = ⟨false, 1⟩) :
    releaseThenTrySpec w i h sw j sh V g := by
  have hexcl : ∀ w' : List Bool, w' = w.set i false →
      (mtxTryLockW w' i).1 = true := by
    intro w' hw'
    have : worldGet w' i = false := hw' ▸ worldGet_set_self w i false hiw
    simp [mtxTryLockW, this]
  have hshared : ∀ sw' : List SharedMtxState,
      sw' = sw.set j (smUnlockShared (sworldGet sw j)) →
      (smTryLockW sw' j).1 = true := by
    intro sw' hsw'
    have hg : sworldGet sw' j = smUnlockShared (sworldGet sw j) :=
      hsw' ▸ sworldGet_set_self sw j _ hjw
    rw [hsole] at hg
    simp [smTryLockW, hg, smTryLock, smUnlockShared]
  unfold releaseThenTrySpec
  refine ⟨hexcl _ rfl, ?_, ?_, ?_, ?_, hshared _ rfl, ?_⟩
  · exact hexcl _ (by simp [ulDtor, howns, hmtx])
  · exact hexcl _ (by simp [ulMoveCtor, ulDtor, howns, hmtx])
  · simp [objMutexTryLock, lockGuardDtor, mtxTryLock, mtxUnlock]
  · exact hshared _ (by simp [slDtor, sho, shm])
  · exact hshared _ (by simp [slMoveCtor, slDtor, sho, shm])

/-- Witness for C7: a locked one-mutex world held by a unique handle, a
one-reader shared world held by a shared handle, and a scope guard on an
`Int` instance. -/
theorem c7_release_then_try_lock_succeeds_witness :
    0 < [true].length ∧ sworldGet [⟨false, 1⟩] 0 = ⟨false, 1⟩ ∧
    releaseThenTrySpec [true] 0 ⟨some 0, true, some 0⟩
      [⟨false, 1⟩] 0 ⟨some 0, true, some 0⟩ Int ⟨⟨true, 0⟩⟩ :=
  ⟨by decide, rfl,
    c7_release_then_try_lock_succeeds [true] 0 ⟨some 0, true, some 0⟩
      [⟨false, 1⟩] 0 ⟨some 0, true, some 0⟩ Int ⟨⟨true, 0⟩⟩
      (by decide) rfl rfl (by decide) rfl rfl rfl⟩

/-- Environment interference preserves the holding invariant: other
threads cannot change which mutexes the assigning thread holds. -/
theorem scopedInv_envStep (a0 a1 : Bool) (s : LockPhase × TwoMtxWorld)
    (h : scopedInv s) : scopedInv (s.1, envStep a0 a1 s.2) := by
  rcases s with ⟨p, w⟩
  cases p <;> simpa [scopedInv, envStep] using h

/-- Each micro-step of the lock/try/back-off loop preserves the holding
invariant. -/
theorem scopedInv_algStep (s : LockPhase × TwoMtxWorld)
    (h : scopedInv s) : scopedInv (algStep s.1 s.2) := by
  rcases s with ⟨p, w⟩
  cases p with
  | blockFirst f =>
    obtain ⟨h0, h1⟩ := h
    have h0' : w.held0 = false := h0
    have h1' : w.held1 = false := h1
    cases f
    · by_cases hm : w.m0 <;> simp [scopedInv, algStep, hm, h0', h1']
    · by_cases hm : w.m1 <;> simp [scopedInv, algStep, hm, h0', h1']
  | tryOther f =>
    cases f
    · obtain ⟨-, h2⟩ := h
      obtain ⟨hh0, hh1⟩ := h2 rfl
      have hh0' : w.held0 = true := hh0
      have hh1' : w.held1 = false := hh1
      by_cases hm : w.m1 <;> simp [scopedInv, algStep, hm, hh0', hh1']
    · obtain ⟨h2, -⟩ := h
      obtain ⟨hh1, hh0⟩ := h2 rfl
      have hh1' : w.held1 = true := hh1
      have hh0' : w.held0 = false := hh0
      by_cases hm : w.m0 <;> simp [scopedInv, algStep, hm, hh0', hh1']
  | acquired => exact h

/-- One interleaving event preserves the holding invariant. -/
theorem scopedStep_inv (s : LockPhase × TwoMtxWorld) (a : ScopedAct)
    (h : scopedInv s) : scopedInv (scopedStep s a) := by
  cases a with
  | env a0 a1 => exact scopedInv_envStep a0 a1 s h
  | alg => exact scopedInv_algStep s h

/-- The holding invariant holds at every state of every interleaving. -/
theorem scopedTrace_inv (acts : List ScopedAct) :
    ∀ (s : LockPhase × TwoMtxWorld), scopedInv s →
      ∀ s' ∈ scopedTrace s acts, scopedInv s' := by
  induction acts with
  | nil =>
    intro s hs s' hmem
    simp [scopedTrace] at hmem
    exact hmem ▸ hs
  | cons a as ih =>
    intro s hs s' hmem
    simp only [scopedTrace, List.mem_cons] at hmem
    rcases hmem with rfl | hmem
    · exact hs
    · exact ih (scopedStep s a) (scopedStep_inv s a hs) s' hmem

/-- The atomic-acquisition guarantee of the two-mutex assignment path,
for every interleaving `acts` starting from `(blockFirst false, w)` (the
`scoped_lock(mtx_, src.mtx_)` entry point): whenever the acquisition is
in its only blocking phase it holds neither lock, once acquired it holds
both, and the value copy (or move) happens only in a state where both
locks are held. -/
def scopedAtomicSpec (acts : List ScopedAct) (w : TwoMtxWorld) : Prop :=
  (∀ s' ∈ scopedTrace (LockPhase.blockFirst false, w) acts, ∀ f,
    s'.1 = LockPhase.blockFirst f → s'.2.held0 = false ∧ s'.2.held1 = false) ∧
  (∀ s' ∈ scopedTrace (LockPhase.blockFirst false, w) acts,
    s'.1 = LockPhase.acquired → s'.2.held0 = true ∧ s'.2.held1 = true) ∧
  (∀ (V : Type) (mv : V → V × V) (src : OMState V),
    ∀ s' ∈ scopedTrace (LockPhase.blockFirst false, w) acts,
      ((copyAfterScoped src s').isSome = true →
        s'.2.held0 = true ∧ s'.2.held1 = true) ∧
      ((moveAfterScoped mv src s').isSome = true →
        s'.2.held0 = true ∧ s'.2.held1 = true))

/-- C3: between two distinct `obj_mutex` instances, copy and move
assignment acquire both locks as one atomic step through the retry-based
`std::lock` algorithm of `std::scoped_lock`: under every thread
interleaving, the acquisition never blocks while holding one of the two
locks, ends with both held, and only then copies (or moves) the source
value into the destination. -/
theorem c3_assignment_locks_both_atomically (acts : List ScopedAct)
    (w : TwoMtxWorld) (h0 : w.held0 = false) (h1 : w.held1 = false) :
    scopedAtomicSpec acts w := by
  have hinv : ∀ s' ∈ scopedTrace (LockPhase.blockFirst false, w) acts,
      scopedInv s' :=
    scopedTrace_inv acts (LockPhase.blockFirst false, w) ⟨h0, h1⟩
  unfold scopedAtomicSpec
  refine ⟨?_, ?_, ?_⟩
  · intro s' hm f hf
    have hi := hinv s' hm
    rcases s' with ⟨p, w'⟩
    simp only at hf
    subst hf
    exact hi
  · intro s' hm hf
    have hi := hinv s' hm
    rcases s' with ⟨p, w'⟩
    simp only at hf
    subst hf
    exact hi
  · intro V mv src s' hm
    have hi := hinv s' hm
    rcases s' with ⟨p, w'⟩
    constructor
    · intro hc
      by_cases hp : p = LockPhase.acquired
      · subst hp; exact hi
      · simp [copyAfterScoped, hp] at hc
    · intro hc
      by_cases hp : p = LockPhase.acquired
      · subst hp; exact hi
      · simp [moveAfterScoped, hp] at hc

/-- Witness for C3: a lock-free starting world and an interleaving in
which another thread takes mutex 1 before the algorithm reaches it,
forcing one back-off and retry. -/
theorem c3_assignment_locks_both_atomically_witness :
    (⟨false, false, false, false⟩ : TwoMtxWorld).held0 = false ∧
    (⟨false, false, false, false⟩ : TwoMtxWorld).held1 = false ∧
    scopedAtomicSpec
      [ScopedAct.alg, ScopedAct.env false true, ScopedAct.alg,
        ScopedAct.env false false, ScopedAct.alg, ScopedAct.alg]
      ⟨false, false, false, false⟩ :=
  ⟨rfl, rfl,
    c3_assignment_locks_both_atomically
      [ScopedAct.alg, ScopedAct.env false true, ScopedAct.alg,
        ScopedAct.env false false, ScopedAct.alg, ScopedAct.alg]
      ⟨false, false, false, false⟩ rfl rfl⟩

end ObjectMutex
